import Mathlib

/-!
Verification of the hot-path arbitrage core of a Base-chain V3 flash-arbitrage
bot, against its natural-language specification.

The Python source is shallowly embedded:
* Python arbitrary-precision `int` becomes `ℤ` (or `ℕ` for addresses/counters);
  Python `//` (floor division) becomes `Int.fdiv`.
* Python `float` arithmetic is modelled exactly over `ℚ`; conversion `int(x)`
  of a float (truncation toward zero) becomes `pytrunc`.
* Fallible code returns `Option`; RPC interactions are passed in explicitly as
  environment values; unbounded loops take explicit fuel (modelling the
  wall-clock timeouts of the source).
-/
/-- Python `int(x)` applied to a float/Decimal value: truncation toward zero.
For `q < 0` we use `-⌊-q⌋`, which equals `⌈q⌉`. -/
def pytrunc (q : ℚ) : ℤ := if 0 ≤ q then ⌊q⌋ else -⌊-q⌋

/-! ### `core/calculator.py` — constants and data structures -/
/-- `FEE_DENOMINATOR = 1_000_000` -/
def FEE_DENOMINATOR : ℤ := 1000000

/-- `Q96 = 2 ** 96` -/
def Q96 : ℤ := 2 ^ 96

/-- `RESPHI = 0.381966011250105` (the float literal, as an exact rational). -/
def RESPHI : ℚ := 381966011250105 / 10 ^ 15

/-- `MAX_BORROW_WEI = int(20.0 * 10**18)` (default `MAX_BORROW_ETH = 20.0`). -/
def MAX_BORROW_WEI : ℤ := 20 * 10 ^ 18

/-- `V3PoolData` (calculator.py): V3 pool data for local calculations. -/
structure V3PoolData where
  address : ℕ
  token0 : ℕ
  token1 : ℕ
  fee : ℤ
  sqrtPriceX96 : ℤ
  liquidity : ℤ
  decimals0 : ℤ := 18
  decimals1 : ℤ := 18
deriving DecidableEq, Repr

/-- `V3ArbitrageResult` (calculator.py). -/
structure V3ArbitrageResult where
  profitable : Bool
  profit : ℤ
  amount_in : ℤ
  amount_out_swap1 : ℤ
  amount_out_swap2 : ℤ
  flash_fee : ℤ
  total_fees : ℤ
  price_impact_pct : ℚ
deriving DecidableEq, Repr

/-- `get_v3_amount_out_fast(amount_in, sqrtPriceX96, liquidity, fee,
zero_for_one) -> (amount_out, fee_amount)` (calculator.py lines 183-239).
The float arithmetic of the source is modelled exactly over `ℚ`; the
`ZeroDivisionError`/`OverflowError` handler of the source is unreachable in
the exact model (the guarded denominators are the only division sources). -/
def get_v3_amount_out_fast (amount_in sqrtPriceX96 liquidity fee : ℤ)
    (zero_for_one : Bool) : ℤ × ℤ :=
  if amount_in ≤ 0 ∨ liquidity ≤ 0 ∨ sqrtPriceX96 ≤ 0 then (0, 0)
  else
    let fee_amount := (amount_in * fee).fdiv FEE_DENOMINATOR
    let amount_after_fee := amount_in - fee_amount
    let sqrt_price : ℚ := (sqrtPriceX96 : ℚ) / (Q96 : ℚ)
    let L : ℚ := (liquidity : ℚ)
    let dx : ℚ := (amount_after_fee : ℚ)
    if zero_for_one then
      let denominator := L + dx * sqrt_price
      if denominator ≤ 0 then (0, fee_amount)
      else
        let sqrt_price_new := L * sqrt_price / denominator
        let dy := L * (sqrt_price - sqrt_price_new)
        (max 0 (pytrunc dy), fee_amount)
    else
      let sqrt_price_new := sqrt_price + dx / L
      if sqrt_price_new ≤ 0 then (0, fee_amount)
      else
        let dx_out := L * (1 / sqrt_price - 1 / sqrt_price_new)
        (max 0 (pytrunc dx_out), fee_amount)

/-- `calculate_v3_arb_profit_fast(amount_in, pool_borrow, pool_swap,
borrow_token_is_token0)` (calculator.py lines 242-314). -/
def calculate_v3_arb_profit_fast (amount_in : ℤ) (pool_borrow pool_swap : V3PoolData)
    (borrow_token_is_token0 : Bool) : V3ArbitrageResult :=
  if amount_in ≤ 0 then
    { profitable := false, profit := 0, amount_in := 0,
      amount_out_swap1 := 0, amount_out_swap2 := 0,
      flash_fee := 0, total_fees := 0, price_impact_pct := 0 }
  else
    let flash_fee := (amount_in * pool_borrow.fee).fdiv FEE_DENOMINATOR
    let s1 := get_v3_amount_out_fast amount_in pool_borrow.sqrtPriceX96
      pool_borrow.liquidity pool_borrow.fee borrow_token_is_token0
    if s1.1 ≤ 0 then
      { profitable := false, profit := 0, amount_in := amount_in,
        amount_out_swap1 := 0, amount_out_swap2 := 0,
        flash_fee := flash_fee, total_fees := flash_fee + s1.2,
        price_impact_pct := 100 }
    else
      let s2 := get_v3_amount_out_fast s1.1 pool_swap.sqrtPriceX96
        pool_swap.liquidity pool_swap.fee (!borrow_token_is_token0)
      let repay_amount := amount_in + flash_fee
      let profit := s2.1 - repay_amount
      { profitable := decide (0 < profit), profit := profit, amount_in := amount_in,
        amount_out_swap1 := s1.1, amount_out_swap2 := s2.1,
        flash_fee := flash_fee, total_fees := flash_fee + s1.2 + s2.2,
        price_impact_pct :=
          max 0 (((amount_in : ℚ) - (s2.1 : ℚ)) / (amount_in : ℚ) * 100) }

/-- The `for _ in range(max_iterations)` golden-section loop of
`find_optimal_amount_in_fast` (calculator.py lines 366-390), with the
iteration count as fuel.  State mirrors the Python locals
`(low, high, x1, x2, f1, f2, result1, result2, best_amount, best_profit,
best_result)`; the per-iteration locals (`x2'`, `result2'`, `f2'` and their
mirror images) are inlined at each occurrence. -/
def goldenLoop (pool_low pool_high : V3PoolData) (b0 : Bool) (precision : ℤ) :
    ℕ → ℤ → ℤ → ℤ → ℤ → ℤ → ℤ → V3ArbitrageResult → V3ArbitrageResult →
    ℤ → ℤ → V3ArbitrageResult → ℤ × ℤ × V3ArbitrageResult
  | 0, _, _, _, _, _, _, _, _, best_amount, best_profit, best_result =>
      (best_amount, best_profit, best_result)
  | fuel + 1, low, high, x1, x2, f1, f2, r1, r2, best_amount, best_profit, best_result =>
      if high - low ≤ precision then (best_amount, best_profit, best_result)
      else if f1 < f2 then
        if best_profit < (calculate_v3_arb_profit_fast
            (pytrunc ((x1 : ℚ) + RESPHI * ((high : ℚ) - (x1 : ℚ))))
            pool_low pool_high b0).profit then
          goldenLoop pool_low pool_high b0 precision fuel
            x1 high x2 (pytrunc ((x1 : ℚ) + RESPHI * ((high : ℚ) - (x1 : ℚ)))) f2
            (calculate_v3_arb_profit_fast
              (pytrunc ((x1 : ℚ) + RESPHI * ((high : ℚ) - (x1 : ℚ))))
              pool_low pool_high b0).profit
            r1
            (calculate_v3_arb_profit_fast
              (pytrunc ((x1 : ℚ) + RESPHI * ((high : ℚ) - (x1 : ℚ))))
              pool_low pool_high b0)
            (pytrunc ((x1 : ℚ) + RESPHI * ((high : ℚ) - (x1 : ℚ))))
            (calculate_v3_arb_profit_fast
              (pytrunc ((x1 : ℚ) + RESPHI * ((high : ℚ) - (x1 : ℚ))))
              pool_low pool_high b0).profit
            (calculate_v3_arb_profit_fast
              (pytrunc ((x1 : ℚ) + RESPHI * ((high : ℚ) - (x1 : ℚ))))
              pool_low pool_high b0)
        else
          goldenLoop pool_low pool_high b0 precision fuel
            x1 high x2 (pytrunc ((x1 : ℚ) + RESPHI * ((high : ℚ) - (x1 : ℚ)))) f2
            (calculate_v3_arb_profit_fast
              (pytrunc ((x1 : ℚ) + RESPHI * ((high : ℚ) - (x1 : ℚ))))
              pool_low pool_high b0).profit
            r1
            (calculate_v3_arb_profit_fast
              (pytrunc ((x1 : ℚ) + RESPHI * ((high : ℚ) - (x1 : ℚ))))
              pool_low pool_high b0)
            best_amount best_profit best_result
      else
        if best_profit < (calculate_v3_arb_profit_fast
            (pytrunc ((x2 : ℚ) - RESPHI * ((x2 : ℚ) - (low : ℚ))))
            pool_low pool_high b0).profit then
          goldenLoop pool_low pool_high b0 precision fuel
            low x2 (pytrunc ((x2 : ℚ) - RESPHI * ((x2 : ℚ) - (low : ℚ)))) x1
            (calculate_v3_arb_profit_fast
              (pytrunc ((x2 : ℚ) - RESPHI * ((x2 : ℚ) - (low : ℚ))))
              pool_low pool_high b0).profit
            f1
            (calculate_v3_arb_profit_fast
              (pytrunc ((x2 : ℚ) - RESPHI * ((x2 : ℚ) - (low : ℚ))))
              pool_low pool_high b0)
            r2
            (pytrunc ((x2 : ℚ) - RESPHI * ((x2 : ℚ) - (low : ℚ))))
            (calculate_v3_arb_profit_fast
              (pytrunc ((x2 : ℚ) - RESPHI * ((x2 : ℚ) - (low : ℚ))))
              pool_low pool_high b0).profit
            (calculate_v3_arb_profit_fast
              (pytrunc ((x2 : ℚ) - RESPHI * ((x2 : ℚ) - (low : ℚ))))
              pool_low pool_high b0)
        else
          goldenLoop pool_low pool_high b0 precision fuel
            low x2 (pytrunc ((x2 : ℚ) - RESPHI * ((x2 : ℚ) - (low : ℚ)))) x1
            (calculate_v3_arb_profit_fast
              (pytrunc ((x2 : ℚ) - RESPHI * ((x2 : ℚ) - (low : ℚ))))
              pool_low pool_high b0).profit
            f1
            (calculate_v3_arb_profit_fast
              (pytrunc ((x2 : ℚ) - RESPHI * ((x2 : ℚ) - (low : ℚ))))
              pool_low pool_high b0)
            r2
            best_amount best_profit best_result

/-- `find_optimal_amount_in_fast(pool_low, pool_high, min_amount, max_amount,
precision, borrow_token_is_token0, max_iterations)` (calculator.py lines
317-392); returns `(best_amount, best_profit, best_result)`. -/
def find_optimal_amount_in_fast (pool_low pool_high : V3PoolData)
    (min_amount max_amount precision : ℤ) (b0 : Bool) (max_iterations : ℕ) :
    ℤ × ℤ × V3ArbitrageResult :=
  let max_safe := min (pool_low.liquidity.fdiv 10) (pool_high.liquidity.fdiv 10)
  let max_amount := if 0 < max_safe ∧ max_safe < max_amount then max_safe else max_amount
  let min_amount :=
    if max_amount ≤ min_amount then max (max_amount.fdiv 10) (10 ^ 15) else min_amount
  let low := min_amount
  let high := max_amount
  let x1 := pytrunc ((high : ℚ) - RESPHI * ((high : ℚ) - (low : ℚ)))
  let x2 := pytrunc ((low : ℚ) + RESPHI * ((high : ℚ) - (low : ℚ)))
  let result1 := calculate_v3_arb_profit_fast x1 pool_low pool_high b0
  let result2 := calculate_v3_arb_profit_fast x2 pool_low pool_high b0
  let f1 := result1.profit
  let f2 := result2.profit
  if f2 < f1 then
    goldenLoop pool_low pool_high b0 precision max_iterations
      low high x1 x2 f1 f2 result1 result2 x1 f1 result1
  else
    goldenLoop pool_low pool_high b0 precision max_iterations
      low high x1 x2 f1 f2 result1 result2 x2 f2 result2

/-! ### `core/scanner_v3.py` — pool registry, state updater, profit engine -/
/-- `WETH_ADDRESS = "0x4200000000000000000000000000000000000006"` (addresses
are modelled by their 160-bit numeric value; Python's `.lower()` string
comparison on equal-length hex strings coincides with numeric comparison). -/
def WETH_ADDRESS : ℕ := 0x4200000000000000000000000000000000000006

/-- `V3_FACTORY = "0x33128a8fC17869897dcE68Ed026d694621f6FDfD"` -/
def V3_FACTORY : ℕ := 0x33128a8fC17869897dcE68Ed026d694621f6FDfD

/-- `MIN_LIQUIDITY = 10**15` -/
def MIN_LIQUIDITY : ℤ := 10 ^ 15

/-- `SLOT0_SELECTOR = "0x3850c7bd"` as bytes. -/
def SLOT0_SELECTOR : List ℕ := [0x38, 0x50, 0xc7, 0xbd]

/-- `LIQUIDITY_SELECTOR = "0x1a686502"` as bytes. -/
def LIQUIDITY_SELECTOR : List ℕ := [0x1a, 0x68, 0x65, 0x02]

/-- `V3PoolInfo` (scanner_v3.py): per-pool cached state. -/
structure V3PoolInfo where
  address : ℕ
  token0 : ℕ
  token1 : ℕ
  fee : ℤ
  sqrtPriceX96 : ℤ := 0
  tick : ℤ := 0
  liquidity : ℤ := 0
  price_0_to_1 : ℚ := 0
  price_1_to_0 : ℚ := 0
  last_update : ℚ := 0
deriving DecidableEq, Repr

/-- `V3ArbitrageOpportunity` (scanner_v3.py). -/
structure V3ArbitrageOpportunity where
  pool_a : V3PoolInfo
  pool_b : V3PoolInfo
  token_borrow : ℕ
  borrow_amount : ℤ
  expected_profit : ℤ
  profit_after_fee : ℤ
  price_diff_percent : ℚ
  flash_fee : ℤ
  direction : String
  timestamp : ℚ
deriving DecidableEq, Repr

/-- `FEE_TIER_NAMES` dict; indexing with a fee outside the table raises
`KeyError` in the source, hence `Option`. -/
def FEE_TIER_NAMES (fee : ℤ) : Option String :=
  if fee = 100 then some "0.01%"
  else if fee = 500 then some "0.05%"
  else if fee = 3000 then some "0.3%"
  else if fee = 10000 then some "1%"
  else none

/-- `sqrt_price_x96_to_price(sqrtPriceX96, decimals0, decimals1)`
(scanner_v3.py lines 123-158); the Decimal arithmetic is modelled exactly
over `ℚ`, and the broad `except` that returns `(0.0, 0.0)` is unreachable in
the exact model. -/
def sqrt_price_x96_to_price (sqrtPriceX96 : ℤ) (decimals0 decimals1 : ℤ) : ℚ × ℚ :=
  if sqrtPriceX96 = 0 then (0, 0)
  else
    let sqrt_price : ℚ := (sqrtPriceX96 : ℚ) / (Q96 : ℚ)
    let raw_price := sqrt_price ^ 2
    let price_0_to_1 := raw_price * (10 : ℚ) ^ (decimals0 - decimals1)
    (price_0_to_1, if 0 < price_0_to_1 then 1 / price_0_to_1 else 0)

/-- `_check_opportunity(pool_a, pool_b, flash_fee_tier, min_profit_wei)`
(scanner_v3.py lines 398-464).  The broad `except` of the source catches the
`KeyError` of the `FEE_TIER_NAMES` lookup; all other operations are total in
the exact model. -/
def check_opportunity (pool_a pool_b : V3PoolInfo) (flash_fee_tier : ℤ)
    (min_profit_wei : ℤ) (now : ℚ) : Option V3ArbitrageOpportunity :=
  let price_a := pool_a.price_0_to_1
  let price_b := pool_b.price_0_to_1
  if price_a ≤ 0 ∨ price_b ≤ 0 then none
  else
    let hl : V3PoolInfo × V3PoolInfo × ℚ :=
      if price_b < price_a then (pool_a, pool_b, (price_a - price_b) / price_b)
      else (pool_b, pool_a, (price_b - price_a) / price_a)
    let high_pool := hl.1
    let low_pool := hl.2.1
    let price_diff := hl.2.2
    let price_diff_percent := price_diff * 100
    let flash_fee_rate : ℚ := (flash_fee_tier : ℚ) / 1000000
    let borrow_amount : ℤ := 10 ^ 18
    let swap_fee_a : ℚ := (pool_a.fee : ℚ) / 1000000
    let swap_fee_b : ℚ := (pool_b.fee : ℚ) / 1000000
    let gross_profit := pytrunc ((borrow_amount : ℚ) * price_diff)
    let flash_fee := pytrunc ((borrow_amount : ℚ) * flash_fee_rate)
    let net_profit := gross_profit - flash_fee -
      pytrunc ((borrow_amount : ℚ) * (swap_fee_a + swap_fee_b))
    if net_profit < min_profit_wei then none
    else
      match FEE_TIER_NAMES low_pool.fee, FEE_TIER_NAMES high_pool.fee with
      | some nlow, some nhigh =>
          some { pool_a := low_pool, pool_b := high_pool,
                 token_borrow := WETH_ADDRESS,
                 borrow_amount := borrow_amount,
                 expected_profit := gross_profit,
                 profit_after_fee := net_profit,
                 price_diff_percent := price_diff_percent,
                 flash_fee := flash_fee,
                 direction := nlow ++ " -> " ++ nhigh,
                 timestamp := now }
      | _, _ => none

/-- The key a pool is grouped under in `find_opportunities`
(`(pool.token0.lower(), pool.token1.lower())`). -/
def poolKey (p : V3PoolInfo) : ℕ × ℕ := (p.token0, p.token1)

/-- Keys of a pool list in first-occurrence order (Python dict insertion
order). -/
def keysInOrder (pools : List V3PoolInfo) : List (ℕ × ℕ) :=
  pools.foldl (fun acc p => if poolKey p ∈ acc then acc else acc ++ [poolKey p]) []

/-- All ordered index pairs `i < j` of a list, in the double-loop order of the
source. -/
def orderedPairs {α : Type} : List α → List (α × α)
  | [] => []
  | a :: rest => rest.map (fun b => (a, b)) ++ orderedPairs rest

/-- `find_opportunities(min_profit_wei, flash_fee_tier)` (scanner_v3.py lines
351-396) over the scanner's pool table `pools` (dict values in insertion
order) with its `min_liquidity` configuration. -/
def find_opportunities (pools : List V3PoolInfo) (min_liquidity : ℤ)
    (min_profit_wei : ℤ) (flash_fee_tier : ℤ) (now : ℚ) :
    List V3ArbitrageOpportunity :=
  let eligible := pools.filter (fun p =>
    ¬ (p.liquidity < min_liquidity) ∧ ¬ (p.sqrtPriceX96 = 0))
  (keysInOrder eligible).flatMap (fun k =>
    let group := eligible.filter (fun p => poolKey p = k)
    (orderedPairs group).filterMap (fun ab =>
      check_opportunity ab.1 ab.2 flash_fee_tier min_profit_wei now))

/-! ### `core/multicall.py` — aggregate batch call -/
/-- The RPC environment seen by `Multicall.aggregate`: result of the
`aggregate3` eth_call and of the fallback `aggregate` eth_call, `none`
when the call raises. -/
structure MulticallEnv where
  agg3 : Option (List (Bool × List ℕ))
  aggFallback : Option (List (List ℕ))
deriving DecidableEq, Repr

/-- `Multicall.aggregate(calls)` (multicall.py lines 104-163): try
`aggregate3`; on exception fall back to plain `aggregate`; if that also
fails, return `(False, b"")` for every call.  Note the function never
raises for well-formed call targets. -/
def Multicall.aggregate (env : MulticallEnv) (calls : List (ℕ × List ℕ)) :
    List (Bool × List ℕ) :=
  match env.agg3 with
  | some results => results
  | none =>
      match env.aggFallback with
      | some return_data => return_data.map (fun d => (true, d))
      | none => calls.map (fun _ => (false, []))

/-! ### `core/scanner_v3.py` — `update_pool_data` -/
/-- Big-endian bytes to a natural number. -/
def beBytesToNat (bs : List ℕ) : ℕ := bs.foldl (fun acc b => acc * 256 + b) 0

/-- `eth_abi.decode` of one 32-byte head word as an unsigned integer. -/
def decodeUintWord (bs : List ℕ) : ℤ := (beBytesToNat (bs.take 32) : ℤ)

/-- `eth_abi.decode` of the second head word as a signed (two's complement)
integer, as the `int24` tick is decoded from its sign-extended word. -/
def decodeIntWord2 (bs : List ℕ) : ℤ :=
  let w := beBytesToNat ((bs.drop 32).take 32)
  if 2 ^ 255 ≤ w then (w : ℤ) - 2 ^ 256 else (w : ℤ)

/-- Per-pool body of the update loop in `update_pool_data` (scanner_v3.py
lines 313-343).  `none` models the inner `except Exception: pass` (reached
when the 7-field `slot0` decode has fewer than `7*32 = 224` bytes available
despite passing the `>= 64` length guard); in that case the pool is left
untouched and not counted. -/
def updateOnePool (pool : V3PoolInfo) (slot0_result liquidity_result : Bool × List ℕ)
    (now : ℚ) : Option V3PoolInfo :=
  let step1 : Option V3PoolInfo :=
    if slot0_result.1 ∧ 64 ≤ slot0_result.2.length then
      if 224 ≤ slot0_result.2.length then
        let sq := decodeUintWord slot0_result.2
        let tk := decodeIntWord2 slot0_result.2
        let pr := sqrt_price_x96_to_price sq 18 18
        some { pool with sqrtPriceX96 := sq, tick := tk,
                         price_0_to_1 := pr.1, price_1_to_0 := pr.2 }
      else none
    else some pool
  match step1 with
  | none => none
  | some p1 =>
      let p2 :=
        if liquidity_result.1 ∧ 32 ≤ liquidity_result.2.length then
          { p1 with liquidity := decodeUintWord liquidity_result.2 }
        else p1
      some { p2 with last_update := now }

/-- The per-pool result-consuming loop of `update_pool_data`: pools are
processed in order against `results[2*i]` / `results[2*i+1]`; an index out of
range (results exhausted) hits the inner `except` and skips the pool.
Returns the updated pool entries and `success_count`. -/
def updatePoolsLoop (now : ℚ) :
    List (ℕ × V3PoolInfo) → List (Bool × List ℕ) → List (ℕ × V3PoolInfo) × ℕ
  | [], _ => ([], 0)
  | e :: es, s0 :: lq :: rest =>
      let tailRes := updatePoolsLoop now es rest
      match updateOnePool e.2 s0 lq now with
      | some p' => ((e.1, p') :: tailRes.1, tailRes.2 + 1)
      | none => (e :: tailRes.1, tailRes.2)
  | e :: es, _ =>
      let tailRes := updatePoolsLoop now es []
      (e :: tailRes.1, tailRes.2)

/-- `update_pool_data()` (scanner_v3.py lines 283-349) over the scanner's
pool table (address-keyed entries in insertion order).  Returns the new pool
table together with `(success, success_count)`; the outer `except` branch
(lines 347-349) is unreachable because `Multicall.aggregate` is total for
well-formed targets. -/
def update_pool_data (pools : List (ℕ × V3PoolInfo)) (env : MulticallEnv)
    (now : ℚ) : List (ℕ × V3PoolInfo) × Bool × ℕ :=
  if pools.isEmpty then (pools, false, 0)
  else
    let calls := pools.flatMap (fun e => [(e.1, SLOT0_SELECTOR), (e.1, LIQUIDITY_SELECTOR)])
    let results := Multicall.aggregate env calls
    let looped := updatePoolsLoop now pools results
    (looped.1, decide (0 < looped.2), looped.2)

/-! ### `core/scanner_v3.py` — CREATE2 pool address derivation -/
/-- 20-byte big-endian encoding of an address value. -/
def addressBytes (a : ℕ) : List ℕ :=
  (List.range 20).map (fun i => a / 256 ^ (19 - i) % 256)

/-- One 32-byte big-endian ABI head word. -/
def abiWord (n : ℕ) : List ℕ :=
  (List.range 32).map (fun i => n / 256 ^ (31 - i) % 256)

/-- `encode(['address','address','uint24'], [token0, token1, fee])`. -/
def abiEncodeSalt (token0 token1 fee : ℕ) : List ℕ :=
  abiWord token0 ++ abiWord token1 ++ abiWord fee

/-- Python `bytes[-20:]`: the last 20 bytes. -/
def lastTwentyBytes (bs : List ℕ) : List ℕ := bs.drop (bs.length - 20)

/-- `compute_v3_pool_address(token0, token1, fee, factory)` (scanner_v3.py
lines 161-190).  `keccak` is passed in as an explicit function argument —
every property proved here holds for an arbitrary 32-byte hash function, in
particular for the real keccak256. -/
def compute_v3_pool_address (keccak : List ℕ → List ℕ)
    (token0 token1 : ℕ) (fee : ℕ) (factory : ℕ) (init_code_hash : List ℕ) : ℕ :=
  let sorted := if token1 < token0 then (token1, token0) else (token0, token1)
  let salt := keccak (abiEncodeSalt sorted.1 sorted.2 fee)
  let create2_input := [0xff] ++ addressBytes factory ++ salt ++ init_code_hash
  beBytesToNat (lastTwentyBytes (keccak create2_input))

/-! ### `core/executor.py` — configuration constants -/
/-- `SLIPPAGE_TOLERANCE_BPS = int(os.getenv("SLIPPAGE_TOLERANCE_BPS", "50"))` -/
def SLIPPAGE_TOLERANCE_BPS : ℤ := 50

/-- `ENFORCE_MIN_AMOUNT_OUT = True` (a hard-coded constant, not an env var). -/
def ENFORCE_MIN_AMOUNT_OUT : Bool := true

/-- `TX_SPEEDUP_GAS_BUMP_PCT = 15.0` (default). -/
def TX_SPEEDUP_GAS_BUMP_PCT : ℚ := 15

/-- `TX_MAX_GAS_WEI = int(50.0 * 10**9)` (default `TX_MAX_GAS_GWEI = 50.0`). -/
def TX_MAX_GAS_WEI : ℤ := 50 * 10 ^ 9

/-- `TX_MAX_SPEEDUP_ATTEMPTS = 5` (default). -/
def TX_MAX_SPEEDUP_ATTEMPTS : ℕ := 5

/-! ### `core/executor.py` — slippage floor (`V3Executor`) -/
/-- `V3Executor._calculate_min_amount_out(expected_amount, slippage_bps)`
(executor.py lines 655-673). -/
def calculate_min_amount_out (expected_amount slippage_bps : ℤ) : ℤ :=
  if expected_amount ≤ 0 then 0
  else
    let min_out := (expected_amount * (10000 - slippage_bps)).fdiv 10000
    if ENFORCE_MIN_AMOUNT_OUT then max 1 min_out else min_out

/-- The `min_amount_out` value that `V3Executor.execute` ABI-encodes into the
`startArbitrage` swap data (executor.py lines 780-789), as a function of the
`min_amount_out` and `expected_swap_output` arguments (both default 0) and
the borrow `amount`. -/
def executeMinOut (min_amount_out expected_swap_output amount : ℤ) : ℤ :=
  if min_amount_out ≤ 0 ∧ 0 < expected_swap_output then
    calculate_min_amount_out expected_swap_output SLIPPAGE_TOLERANCE_BPS
  else if min_amount_out ≤ 0 ∧ ENFORCE_MIN_AMOUNT_OUT then
    amount.fdiv 1000
  else min_amount_out

/-- `_encode_swap_data(target_token, target_fee, min_amount_out)` (executor.py
lines 571-585): the three ABI head words of `(address, uint24, uint256)`. -/
def encode_swap_data (target_token target_fee min_amount_out : ℤ) : List ℤ :=
  [target_token, target_fee, min_amount_out]

/-! ### `core/executor.py` — gas bumping and replacement transactions -/
/-- EIP-1559 (`maxFeePerGas`/`maxPriorityFeePerGas`) or legacy (`gasPrice`)
gas-parameter dictionaries. -/
inductive GasParams where
  | eip1559 (maxFee priority : ℤ)
  | legacy (gasPrice : ℤ)
deriving DecidableEq, Repr

/-- The fee field the absolute cap is checked against in `_bump_gas_price`. -/
def GasParams.capFee : GasParams → ℤ
  | .eip1559 maxFee _ => maxFee
  | .legacy gasPrice => gasPrice

/-- `V3Executor._bump_gas_price(current_gas_params, bump_percentage)`
(executor.py lines 1151-1185); returns `(new_gas_params, is_within_cap)`. -/
def bump_gas_price (gp : GasParams) (bump_percentage : ℚ) : GasParams × Bool :=
  let bump_multiplier : ℚ := 1 + bump_percentage / 100
  match gp with
  | .eip1559 maxFee priority =>
      let new_max_fee := pytrunc ((maxFee : ℚ) * bump_multiplier)
      let new_priority_fee := pytrunc ((priority : ℚ) * bump_multiplier)
      if TX_MAX_GAS_WEI < new_max_fee then (gp, false)
      else (.eip1559 new_max_fee new_priority_fee, true)
  | .legacy gasPrice =>
      let new_gas_price := pytrunc ((gasPrice : ℚ) * bump_multiplier)
      if TX_MAX_GAS_WEI < new_gas_price then (gp, false)
      else (.legacy new_gas_price, true)

/-- A replacement transaction as built by `_create_replacement_tx`
(executor.py lines 1202-1232): same call data as the original, the given
nonce (`nonce` argument, always the initial nonce at the call sites) and the
new gas parameters. -/
structure ReplacementTx where
  nonce : ℕ
  gas : GasParams
deriving DecidableEq, Repr

/-! ### `core/executor.py` — `send_and_monitor` stuck-transaction loop -/
/-- The outcome the environment assigns to one replacement broadcast
(`self.w3.eth.send_raw_transaction(replacement_raw)`):
accepted, "nonce too low" with a prior hash found mined,
"nonce too low" with no prior hash mined, "replacement underpriced",
or any other error. -/
inductive SendOutcome where
  | ok
  | nonceTooLowConfirmed
  | nonceTooLowNotFound
  | underpriced
  | otherError
deriving DecidableEq, Repr

/-- Environment for one iteration of the monitoring loop. -/
structure MonitorStep where
  timedOut : Bool
  confirmedDuringPoll : Bool
  sendResult : SendOutcome
deriving DecidableEq, Repr

/-- Abstract monitoring outcome (receipt details are irrelevant here). -/
structure MonitorResultM where
  confirmed : Bool
  speedup_count : ℕ
deriving DecidableEq, Repr

/-- The `while attempt <= TX_MAX_SPEEDUP_ATTEMPTS` loop of
`V3Executor.send_and_monitor` (executor.py lines 1302-1426), one
`MonitorStep` consumed per iteration and explicit fuel for the wall-clock
`TX_TOTAL_TIMEOUT` bound (the "replacement underpriced" branch `continue`s
without incrementing `attempt`, so the attempt counter alone does not bound
the loop).  Returns the result together with every replacement transaction
broadcast by the loop. -/
def monitorLoop (initial_nonce : ℕ) :
    ℕ → List MonitorStep → ℕ → GasParams → ℕ → MonitorResultM × List ReplacementTx
  | 0, _, _, _, speedups => ({ confirmed := false, speedup_count := speedups }, [])
  | _ + 1, [], _, _, speedups => ({ confirmed := false, speedup_count := speedups }, [])
  | fuel + 1, st :: rest, attempt, gas, speedups =>
      if TX_MAX_SPEEDUP_ATTEMPTS < attempt then
        ({ confirmed := false, speedup_count := speedups }, [])
      else if st.timedOut then
        ({ confirmed := false, speedup_count := speedups }, [])
      else if st.confirmedDuringPoll then
        ({ confirmed := true, speedup_count := speedups }, [])
      else if TX_MAX_SPEEDUP_ATTEMPTS ≤ attempt then
        monitorLoop initial_nonce fuel rest (attempt + 1) gas speedups
      else
        let bumped := bump_gas_price gas TX_SPEEDUP_GAS_BUMP_PCT
        if bumped.2 = false then
          ({ confirmed := false, speedup_count := speedups }, [])
        else
          let repl : ReplacementTx := { nonce := initial_nonce, gas := bumped.1 }
          match st.sendResult with
          | .ok =>
              let tailRes := monitorLoop initial_nonce fuel rest (attempt + 1) bumped.1 (speedups + 1)
              (tailRes.1, repl :: tailRes.2)
          | .nonceTooLowConfirmed =>
              ({ confirmed := true, speedup_count := speedups }, [repl])
          | .nonceTooLowNotFound =>
              let tailRes := monitorLoop initial_nonce fuel rest (attempt + 1) gas speedups
              (tailRes.1, repl :: tailRes.2)
          | .underpriced =>
              let rebumped := (bump_gas_price gas (TX_SPEEDUP_GAS_BUMP_PCT * (3 / 2))).1
              let tailRes := monitorLoop initial_nonce fuel rest attempt rebumped speedups
              (tailRes.1, repl :: tailRes.2)
          | .otherError =>
              let tailRes := monitorLoop initial_nonce fuel rest (attempt + 1) gas speedups
              (tailRes.1, repl :: tailRes.2)

/-- Environment of `send_and_monitor`: outcome of the initial broadcast, one
`MonitorStep` per loop iteration, and the outcome of the final
post-loop receipt re-check (lines 1405-1416). -/
structure MonitorEnv where
  initialSendOk : Bool
  steps : List MonitorStep
  finalCheckConfirmed : Bool
deriving DecidableEq, Repr

/-- `V3Executor.send_and_monitor(tx_params, signed_tx, initial_nonce,
initial_gas_params)` (executor.py lines 1258-1426), with
`TX_SPEEDUP_ENABLED = True` (the default).  Returns the monitoring result and
the list of replacement transactions broadcast (the initial transaction is
not a replacement). -/
def send_and_monitor (initial_nonce : ℕ) (initial_gas_params : GasParams)
    (fuel : ℕ) (env : MonitorEnv) : MonitorResultM × List ReplacementTx :=
  if ¬ env.initialSendOk then ({ confirmed := false, speedup_count := 0 }, [])
  else
    let looped := monitorLoop initial_nonce fuel env.steps 0 initial_gas_params 0
    if looped.1.confirmed then looped
    else ({ confirmed := env.finalCheckConfirmed,
            speedup_count := looped.1.speedup_count }, looped.2)

/-! ### `core/executor.py` / `core/executor_v3.py` — execute control flow -/
/-- Nonce cache state: `self._nonce` (`none` = must re-fetch). -/
def NonceCache : Type := Option ℕ

/-- `V3Executor._get_nonce()` (executor.py lines 454-466): refetch from the
chain when the cache is unset or expired, then increment optimistically.
Returns `(nonce_used, new_cache)`. -/
def get_nonce (cache : NonceCache) (chain_nonce : ℕ) (expired : Bool) : ℕ × NonceCache :=
  match cache with
  | none => (chain_nonce, some (chain_nonce + 1))
  | some n => if expired then (chain_nonce, some (chain_nonce + 1)) else (n, some (n + 1))

/-- `V3Executor._reset_nonce()` (executor.py lines 468-472). -/
def reset_nonce : NonceCache := none

/-- Observable RPC writes of an execution attempt. -/
inductive ExecAction where
  | simulate
  | sendRawTransaction (nonce : ℕ)
deriving DecidableEq, Repr

/-- Environment for one `execute` attempt. -/
structure ExecEnv where
  chain_nonce : ℕ
  nonce_expired : Bool
  simOk : Bool
  rawOk : Bool
  broadcastOk : Bool
  receiptSuccess : Bool
deriving DecidableEq, Repr

/-- Abstracted `ExecutionResult`. -/
structure ExecutionResultM where
  success : Bool
  error : Option String
deriving DecidableEq, Repr

/-- `V3Executor.execute(...)` control flow (executor.py lines 745-1014),
abstracted to the claim-relevant effects: nonce handling, the pre-flight
`startArbitrage` eth_call (strict `_simulate_with_balance_check` and the
standard `.call` both succeed exactly when the eth_call does not revert),
signing/raw extraction, and broadcast.  The broadcast section (private RPC /
speed-up monitor / plain) is collapsed into one raw-transaction send; the
monitor itself is modelled in full by `send_and_monitor` above.  Returns
`(result, nonce cache after, RPC writes in order)`. -/
def executeModel (strict_simulation_check dry_run : Bool) (env : ExecEnv)
    (cache : NonceCache) : ExecutionResultM × NonceCache × List ExecAction :=
  let fetched := get_nonce cache env.chain_nonce env.nonce_expired
  let nonce := fetched.1
  let cache1 := fetched.2
  if dry_run then
    ({ success := true, error := some "Dry run - not executed" }, cache1, [])
  else
    if ¬ env.simOk then
      ({ success := false,
         error := some (if strict_simulation_check then "Strict simulation failed"
                        else "Simulation failed") }, reset_nonce, [.simulate])
    else if ¬ env.rawOk then
      ({ success := false, error := some "Could not extract raw transaction" },
       reset_nonce, [.simulate])
    else if ¬ env.broadcastOk then
      ({ success := false, error := some "broadcast error" }, reset_nonce,
       [.simulate, .sendRawTransaction nonce])
    else
      ({ success := env.receiptSuccess,
         error := if env.receiptSuccess then none else some "Transaction reverted" },
       cache1, [.simulate, .sendRawTransaction nonce])

/-- `V3ArbitrageExecutor.execute_v3_arbitrage(...)` control flow
(executor_v3.py lines 283-440), same abstraction as `executeModel`.  Note its
`dry_run` early return happens before the simulation. -/
def executeV3ArbitrageModel (dry_run : Bool) (env : ExecEnv)
    (cache : NonceCache) : ExecutionResultM × NonceCache × List ExecAction :=
  let fetched := get_nonce cache env.chain_nonce env.nonce_expired
  let nonce := fetched.1
  let cache1 := fetched.2
  if dry_run then
    ({ success := true, error := some "Dry run" }, cache1, [])
  else if ¬ env.simOk then
    ({ success := false, error := some "Simulation failed" }, reset_nonce, [.simulate])
  else if ¬ env.rawOk then
    ({ success := false, error := some "Could not extract raw transaction bytes" },
     reset_nonce, [.simulate])
  else if ¬ env.broadcastOk then
    ({ success := false, error := some "broadcast error" }, reset_nonce,
     [.simulate, .sendRawTransaction nonce])
  else
    ({ success := env.receiptSuccess,
       error := if env.receiptSuccess then none else some "Transaction reverted" },
     cache1, [.simulate, .sendRawTransaction nonce])

/-! ### Claim C4 — single-tick swap output formula -/
/-- The single-tick output as the specification states it: fee-adjusted input
`x' = amount_in - (amount_in*fee)//10^6`, `√P = sqrtPriceX96 / 2^96`; for
`zero_for_one` the new price `L*√P/(L + x'*√P)` and output `L*(√P - √P_new)`,
otherwise `√P + x'/L` and `L*(1/√P - 1/√P_new)`; every degenerate case
(non-positive input, liquidity or price, non-positive denominator,
`√P_new ≤ 0`) returns output 0.  Transcribed from the spec text, to be
compared against the source embedding `get_v3_amount_out_fast`. -/
def specSingleTickAmountOut (amount_in sqrtPriceX96 liquidity fee : ℤ)
    (zero_for_one : Bool) : ℤ :=
  if amount_in ≤ 0 ∨ liquidity ≤ 0 ∨ sqrtPriceX96 ≤ 0 then 0
  else
    let xp : ℤ := amount_in - (amount_in * fee).fdiv 1000000
    let sP : ℚ := (sqrtPriceX96 : ℚ) / ((2 ^ 96 : ℤ) : ℚ)
    let L : ℚ := (liquidity : ℚ)
    if zero_for_one then
      if L + (xp : ℚ) * sP ≤ 0 then 0
      else
        let sPnew := L * sP / (L + (xp : ℚ) * sP)
        max 0 (pytrunc (L * (sP - sPnew)))
    else
      let sPnew := sP + (xp : ℚ) / L
      if sPnew ≤ 0 then 0
      else max 0 (pytrunc (L * (1 / sP - 1 / sPnew)))

/-- Concrete pool snapshot: two pools on token pair (10, 11) with a 1% price
gap. -/
def c6PoolA : V3PoolInfo :=
  { address := 100, token0 := 10, token1 := 11, fee := 3000, sqrtPriceX96 := 1,
    tick := 0, liquidity := 10 ^ 16, price_0_to_1 := 101 / 100,
    price_1_to_0 := 100 / 101, last_update := 0 }

def c6PoolB : V3PoolInfo :=
  { address := 101, token0 := 10, token1 := 11, fee := 500, sqrtPriceX96 := 1,
    tick := 0, liquidity := 10 ^ 16, price_0_to_1 := 1,
    price_1_to_0 := 1, last_update := 0 }

/-- Two further pools on token pair (10, 12) with a 2% price gap. -/
def c6PoolC : V3PoolInfo :=
  { address := 102, token0 := 10, token1 := 12, fee := 3000, sqrtPriceX96 := 1,
    tick := 0, liquidity := 10 ^ 16, price_0_to_1 := 51 / 50,
    price_1_to_0 := 50 / 51, last_update := 0 }

def c6PoolD : V3PoolInfo :=
  { address := 103, token0 := 10, token1 := 12, fee := 500, sqrtPriceX96 := 1,
    tick := 0, liquidity := 10 ^ 16, price_0_to_1 := 1,
    price_1_to_0 := 1, last_update := 0 }

def c6Pools : List V3PoolInfo := [c6PoolA, c6PoolB, c6PoolC, c6PoolD]

/-- The opportunity produced for the (10, 11) pair: net profit exactly the
floor `6 * 10^15`. -/
def c6Opp1 : V3ArbitrageOpportunity :=
  { pool_a := c6PoolB, pool_b := c6PoolA, token_borrow := WETH_ADDRESS,
    borrow_amount := 10 ^ 18, expected_profit := 10 ^ 16,
    profit_after_fee := 6 * 10 ^ 15, price_diff_percent := 1,
    flash_fee := 5 * 10 ^ 14, direction := "0.05% -> 0.3%", timestamp := 0 }

/-- The opportunity produced for the (10, 12) pair: net profit
`16 * 10^15`, larger than the first yet listed second. -/
def c6Opp2 : V3ArbitrageOpportunity :=
  { pool_a := c6PoolD, pool_b := c6PoolC, token_borrow := WETH_ADDRESS,
    borrow_amount := 10 ^ 18, expected_profit := 2 * 10 ^ 16,
    profit_after_fee := 16 * 10 ^ 15, price_diff_percent := 2,
    flash_fee := 5 * 10 ^ 14, direction := "0.05% -> 0.3%", timestamp := 0 }

/-- A pair of identical tiny pools: liquidity 50, price 1 (sqrtPriceX96 =
2^96), fee tier 500. -/
def c7TinyPool : V3PoolData :=
  { address := 7, token0 := 1, token1 := 2, fee := 500,
    sqrtPriceX96 := 2 ^ 96, liquidity := 50 }

/-- A pair of identical deep pools: liquidity 10^18. -/
def c7BigPool : V3PoolData :=
  { address := 8, token0 := 1, token1 := 2, fee := 500,
    sqrtPriceX96 := 2 ^ 96, liquidity := 10 ^ 18 }

/-! ### Claim C9 — a round trip through a single pool is lossy -/
/-- Fee-free single-tick output curve, token0 -> token1 direction:
the value of `L * (sqrtP - L*sqrtP/(L + a*sqrtP))` in closed form. -/
def curveOut0 (L s a : ℚ) : ℚ := L * s ^ 2 * a / (L + a * s)

/-- Fee-free single-tick output curve, token1 -> token0 direction:
the value of `L * (1/sqrtP - 1/(sqrtP + a/L))` in closed form. -/
def curveOut1 (L s a : ℚ) : ℚ := a * L / (s * (L * s + a))

theorem pytrunc_le_of_nonneg {q : ℚ} (h : 0 ≤ q) : (pytrunc q : ℚ) ≤ q := by
  rw [pytrunc, if_pos h]
  exact Int.floor_le q

theorem pytrunc_nonpos_of_neg {q : ℚ} (h : q < 0) : pytrunc q ≤ 0 := by
  rw [pytrunc, if_neg (not_le.mpr h)]
  have h0 : (0 : ℤ) ≤ ⌊-q⌋ := by
    have : ((0 : ℤ) : ℚ) ≤ -q := by push_cast; linarith
    exact Int.le_floor.mpr this
  omega

/-- The clamped truncation `max 0 (pytrunc q)` is bounded by any nonnegative
upper bound of `q`. -/
theorem max_zero_pytrunc_le {q Q : ℚ} (hqQ : q ≤ Q) (hQ : 0 ≤ Q) :
    ((max 0 (pytrunc q) : ℤ) : ℚ) ≤ Q := by
  rcases le_or_lt 0 q with h | h
  · have h1 : (pytrunc q : ℚ) ≤ Q := le_trans (pytrunc_le_of_nonneg h) hqQ
    have h2 : (0 : ℚ) ≤ Q := hQ
    rcases max_choice 0 (pytrunc q) with hm | hm <;> rw [hm]
    · exact_mod_cast h2
    · exact h1
  · have h1 : pytrunc q ≤ 0 := pytrunc_nonpos_of_neg h
    have hm : max 0 (pytrunc q) = 0 := by omega
    rw [hm]
    exact_mod_cast hQ

/-- Truncation of a value known to be at most an integer bound `M ≥ 0` stays
at most `M`. -/
theorem pytrunc_le_int {q : ℚ} {M : ℤ} (hq : q ≤ (M : ℚ)) (hM : 0 ≤ M) :
    pytrunc q ≤ M := by
  rcases le_or_lt 0 q with h | h
  · rw [pytrunc, if_pos h]
    have := Int.floor_le_floor hq
    simpa using this
  · exact le_trans (pytrunc_nonpos_of_neg h) hM

/-- C4: for every input, `get_v3_amount_out_fast` returns exactly the
spec-stated single-tick output — the fee-adjusted input is
`amount_in - (amount_in*fee)//10^6`, the output follows the stated price
formulas, and every degenerate case yields output 0 instead of failing. -/
theorem get_v3_amount_out_matches_spec
    (amount_in sqrtPriceX96 liquidity fee : ℤ) (zero_for_one : Bool) :
    (get_v3_amount_out_fast amount_in sqrtPriceX96 liquidity fee zero_for_one).1 =
      specSingleTickAmountOut amount_in sqrtPriceX96 liquidity fee zero_for_one := by
  unfold get_v3_amount_out_fast specSingleTickAmountOut
  simp only [FEE_DENOMINATOR, Q96]
  split
  · rfl
  · split <;> split <;> rfl

/-! ### Claim C5 — CREATE2 pool address derivation -/
/-- C5: for any hash function, the derived pool address sorts the two tokens
ascending, hashes the ABI-encoded salt, and takes the last 20 bytes of
`keccak(0xff || factory || salt || init_code_hash)`; consequently it is
symmetric in the order of the two token arguments. -/
theorem compute_v3_pool_address_sorts_and_symmetric :
    (∀ (keccak : List ℕ → List ℕ) (tA tB fee factory : ℕ) (ich : List ℕ),
      compute_v3_pool_address keccak tA tB fee factory ich =
        beBytesToNat (lastTwentyBytes (keccak
          ([0xff] ++ addressBytes factory ++
            keccak (abiEncodeSalt (min tA tB) (max tA tB) fee) ++ ich)))) ∧
    (∀ (keccak : List ℕ → List ℕ) (tA tB fee factory : ℕ) (ich : List ℕ),
      compute_v3_pool_address keccak tA tB fee factory ich =
        compute_v3_pool_address keccak tB tA fee factory ich) := by
  constructor
  · intro keccak tA tB fee factory ich
    unfold compute_v3_pool_address
    rcases lt_or_le tB tA with h | h
    · rw [if_pos h]
      simp only [min_eq_right h.le, max_eq_left h.le]
    · rw [if_neg (not_lt.mpr h)]
      simp only [min_eq_left h, max_eq_right h]
  · intro keccak tA tB fee factory ich
    unfold compute_v3_pool_address
    rcases lt_trichotomy tA tB with h | h | h
    · rw [if_neg (not_lt.mpr h.le), if_pos h]
    · rw [h]
    · rw [if_pos h, if_neg (not_lt.mpr h.le)]

/-! ### Claim C3 — failed simulation: no broadcast, nonce invalidated -/
/-- C3: in both executors, when the pre-flight `startArbitrage` simulation
fails, the attempt returns failure, no raw transaction is ever broadcast for
it, and the nonce cache is reset to must-re-fetch. -/
theorem failed_simulation_no_broadcast :
    ∀ (strict : Bool) (env : ExecEnv) (cache : NonceCache),
      env.simOk = false →
      ((executeModel strict false env cache).1.success = false ∧
       (executeModel strict false env cache).2.1 = none ∧
       (∀ n, ExecAction.sendRawTransaction n ∉ (executeModel strict false env cache).2.2)) ∧
      ((executeV3ArbitrageModel false env cache).1.success = false ∧
       (executeV3ArbitrageModel false env cache).2.1 = none ∧
       (∀ n, ExecAction.sendRawTransaction n ∉ (executeV3ArbitrageModel false env cache).2.2)) := by
  intro strict env cache h
  simp [executeModel, executeV3ArbitrageModel, h, reset_nonce]

/-- Witness for C3 at a concrete environment whose simulation reverts. -/
theorem failed_simulation_no_broadcast_witness :
    ((executeModel true false ⟨4, false, false, true, true, true⟩ none).1.success = false ∧
     (executeModel true false ⟨4, false, false, true, true, true⟩ none).2.1 = none ∧
     (∀ n, ExecAction.sendRawTransaction n ∉
        (executeModel true false ⟨4, false, false, true, true, true⟩ none).2.2)) ∧
    ((executeV3ArbitrageModel false ⟨4, false, false, true, true, true⟩ none).1.success = false ∧
     (executeV3ArbitrageModel false ⟨4, false, false, true, true, true⟩ none).2.1 = none ∧
     (∀ n, ExecAction.sendRawTransaction n ∉
        (executeV3ArbitrageModel false ⟨4, false, false, true, true, true⟩ none).2.2)) :=
  failed_simulation_no_broadcast true ⟨4, false, false, true, true, true⟩ none rfl

/-! ### Claim C8 — stuck-transaction replacements: same nonce, capped fees -/
theorem bump_gas_price_capped (gp : GasParams) (pct : ℚ)
    (h : (bump_gas_price gp pct).2 = true) :
    (bump_gas_price gp pct).1.capFee ≤ TX_MAX_GAS_WEI := by
  cases gp <;> simp only [bump_gas_price] at h ⊢ <;> split at h <;> split <;>
    simp_all [GasParams.capFee]

theorem monitorLoop_replacement_mem (n : ℕ) :
    ∀ (fuel : ℕ) (steps : List MonitorStep) (attempt : ℕ) (gas : GasParams)
      (sp : ℕ) (r : ReplacementTx),
      r ∈ (monitorLoop n fuel steps attempt gas sp).2 →
      r.nonce = n ∧ r.gas.capFee ≤ TX_MAX_GAS_WEI := by
  intro fuel
  induction fuel with
  | zero =>
    intro steps attempt gas sp r hr
    simp [monitorLoop] at hr
  | succ fuel ih =>
    intro steps attempt gas sp r hr
    cases steps with
    | nil => simp [monitorLoop] at hr
    | cons st rest =>
      rw [monitorLoop] at hr
      split at hr
      · simp at hr
      · split at hr
        · simp at hr
        · split at hr
          · simp at hr
          · split at hr
            · exact ih rest (attempt + 1) gas sp r hr
            · split at hr
              all_goals
                cases hb : (bump_gas_price gas TX_SPEEDUP_GAS_BUMP_PCT).2 with
                | false => simp [hb] at hr
                | true =>
                    simp only [hb, Bool.true_eq_false, if_false] at hr
                    rcases List.mem_cons.mp hr with hr' | hr'
                    · subst hr'
                      exact ⟨rfl, bump_gas_price_capped gas _ hb⟩
                    · first
                        | exact ih rest _ _ _ r hr'
                        | simp at hr'

theorem monitorLoop_stops_at_cap (n : ℕ) :
    ∀ (fuel : ℕ) (steps : List MonitorStep) (attempt : ℕ) (gas : GasParams) (sp : ℕ),
      (bump_gas_price gas TX_SPEEDUP_GAS_BUMP_PCT).2 = false →
      (monitorLoop n fuel steps attempt gas sp).2 = [] := by
  intro fuel
  induction fuel with
  | zero => intro steps attempt gas sp _; simp [monitorLoop]
  | succ fuel ih =>
    intro steps attempt gas sp h
    cases steps with
    | nil => simp [monitorLoop]
    | cons st rest =>
      rw [monitorLoop]
      split
      · rfl
      · split
        · rfl
        · split
          · rfl
          · split
            · exact ih rest (attempt + 1) gas sp h
            · simp [h]

theorem send_and_monitor_snd (n : ℕ) (gas0 : GasParams) (fuel : ℕ) (env : MonitorEnv) :
    (send_and_monitor n gas0 fuel env).2 =
      if env.initialSendOk then (monitorLoop n fuel env.steps 0 gas0 0).2 else [] := by
  by_cases h : env.initialSendOk
  · simp only [send_and_monitor, h, not_true, if_neg, Bool.not_true, if_true,
      Bool.false_eq_true, if_false]
    split <;> rfl
  · simp [send_and_monitor, h]

/-- C8: every replacement transaction broadcast by the stuck-transaction
monitor carries the initial nonce and gas fees at most `TX_MAX_GAS_WEI`
(50 gwei default); and when bumping the current fees would exceed the cap,
the monitor broadcasts no replacement at all and exits. -/
theorem replacement_txs_same_nonce_capped :
    (∀ (n : ℕ) (gas0 : GasParams) (fuel : ℕ) (env : MonitorEnv) (r : ReplacementTx),
       r ∈ (send_and_monitor n gas0 fuel env).2 →
       r.nonce = n ∧ r.gas.capFee ≤ TX_MAX_GAS_WEI) ∧
    (∀ (n : ℕ) (gas0 : GasParams) (fuel : ℕ) (env : MonitorEnv),
       (bump_gas_price gas0 TX_SPEEDUP_GAS_BUMP_PCT).2 = false →
       (send_and_monitor n gas0 fuel env).2 = []) := by
  constructor
  · intro n gas0 fuel env r hr
    rw [send_and_monitor_snd] at hr
    split at hr
    · exact monitorLoop_replacement_mem n fuel env.steps 0 gas0 0 r hr
    · simp at hr
  · intro n gas0 fuel env h
    rw [send_and_monitor_snd]
    split
    · exact monitorLoop_stops_at_cap n fuel env.steps 0 gas0 0 h
    · rfl

theorem bump_eval_example :
    bump_gas_price (.eip1559 (10 ^ 9) (10 ^ 8)) TX_SPEEDUP_GAS_BUMP_PCT =
      (.eip1559 1150000000 115000000, true) := by
  rw [bump_gas_price]
  norm_num [pytrunc, TX_SPEEDUP_GAS_BUMP_PCT, TX_MAX_GAS_WEI]

theorem send_and_monitor_eval_example :
    (send_and_monitor 7 (.eip1559 (10 ^ 9) (10 ^ 8)) 3
      ⟨true, [⟨false, false, .ok⟩], false⟩).2 =
      [⟨7, .eip1559 1150000000 115000000⟩] := by
  rw [send_and_monitor]
  simp only [Bool.not_true, monitorLoop, bump_eval_example]
  norm_num [TX_MAX_SPEEDUP_ATTEMPTS]

theorem bump_eval_cap_example :
    (bump_gas_price (.legacy (49 * 10 ^ 9)) TX_SPEEDUP_GAS_BUMP_PCT).2 = false := by
  rw [bump_gas_price]
  norm_num [pytrunc, TX_SPEEDUP_GAS_BUMP_PCT, TX_MAX_GAS_WEI]

/-- Witness for C8: a monitor run broadcasting one replacement (nonce 7,
fees within cap), and a run whose first bump would exceed the cap
broadcasting none. -/
theorem replacement_txs_same_nonce_capped_witness :
    ((⟨7, .eip1559 1150000000 115000000⟩ : ReplacementTx).nonce = 7 ∧
     (⟨7, .eip1559 1150000000 115000000⟩ : ReplacementTx).gas.capFee ≤ TX_MAX_GAS_WEI) ∧
    (send_and_monitor 7 (.legacy (49 * 10 ^ 9)) 3
      ⟨true, [⟨false, false, .ok⟩], false⟩).2 = [] :=
  ⟨replacement_txs_same_nonce_capped.1 7 (.eip1559 (10 ^ 9) (10 ^ 8)) 3
      ⟨true, [⟨false, false, .ok⟩], false⟩ ⟨7, .eip1559 1150000000 115000000⟩
      (by rw [send_and_monitor_eval_example]; exact List.mem_singleton_self _),
   replacement_txs_same_nonce_capped.2 7 (.legacy (49 * 10 ^ 9)) 3
      ⟨true, [⟨false, false, .ok⟩], false⟩ bump_eval_cap_example⟩

/-! ### Claim C1 — the encoded min_amount_out -/
/-- Counterexample to C1 as stated: with the default arguments
(`min_amount_out = 0`) and `expected_swap_output = 0`, a borrow amount of
999 wei makes `execute` fall to the `amount // 1000` fallback and encode a
`min_amount_out` of exactly 0 into the swap data. -/
theorem executeMinOut_zero_counterexample : executeMinOut 0 0 999 = 0 := by decide

/-- C1 (amended): whenever a positive expected swap output is supplied (and
no explicit `min_amount_out`), the encoded value is exactly
`max 1 (expected * (10000 - slippage_bps) // 10000)` and is strictly
positive; with no expected output the code instead falls back to
`amount // 1000`, which is 0 for `amount < 1000`. -/
theorem executeMinOut_positive_of_expected (expected amount : ℤ)
    (h : 0 < expected) :
    executeMinOut 0 expected amount =
      max 1 ((expected * (10000 - SLIPPAGE_TOLERANCE_BPS)).fdiv 10000) ∧
    0 < executeMinOut 0 expected amount := by
  have hform : executeMinOut 0 expected amount =
      max 1 ((expected * (10000 - SLIPPAGE_TOLERANCE_BPS)).fdiv 10000) := by
    rw [executeMinOut, if_pos ⟨le_refl 0, h⟩, calculate_min_amount_out,
      if_neg (not_le.mpr h)]
    rfl
  refine ⟨hform, ?_⟩
  rw [hform]
  have : (1 : ℤ) ≤ max 1 ((expected * (10000 - SLIPPAGE_TOLERANCE_BPS)).fdiv 10000) :=
    le_max_left _ _
  omega

/-- Witness for the amended C1 at a concrete quoted output of 1 ETH. -/
theorem executeMinOut_positive_of_expected_witness :
    executeMinOut 0 (10 ^ 18) 999 =
      max 1 (((10 ^ 18 : ℤ) * (10000 - SLIPPAGE_TOLERANCE_BPS)).fdiv 10000) ∧
    0 < executeMinOut 0 (10 ^ 18) 999 :=
  executeMinOut_positive_of_expected (10 ^ 18) 999 (by decide)

/-! ### Claim C2 — behaviour when the aggregate batch call fails -/
theorem updatePoolsLoop_all_failed (now : ℚ) :
    ∀ pools : List (ℕ × V3PoolInfo),
      updatePoolsLoop now pools
        ((pools.flatMap (fun e => [(e.1, SLOT0_SELECTOR), (e.1, LIQUIDITY_SELECTOR)])).map
          (fun _ => ((false : Bool), ([] : List ℕ)))) =
        (pools.map (fun e => (e.1, { e.2 with last_update := now })), pools.length) := by
  intro pools
  induction pools with
  | nil => simp [updatePoolsLoop]
  | cons e es ih =>
      rw [List.flatMap_cons, List.map_append,
        show List.map (fun _ => ((false : Bool), ([] : List ℕ)))
            [(e.1, SLOT0_SELECTOR), (e.1, LIQUIDITY_SELECTOR)] =
          [((false : Bool), ([] : List ℕ)), ((false : Bool), ([] : List ℕ))] from rfl,
        List.cons_append, List.cons_append, List.nil_append, updatePoolsLoop, ih]
      simp [updateOnePool]

/-- Counterexample to C2 as stated: when both the `aggregate3` call and the
`aggregate` fallback fail, `Multicall.aggregate` returns a per-call failure
list instead of raising, so `update_pool_data` still stamps `last_update` on
every pool and reports the cycle as successful — the cycle is not skipped
and pool state is not left exactly as it was. -/
theorem update_pool_data_aggregate_failure_counterexample :
    ¬ (((update_pool_data
          [(1, { address := 1, token0 := 2, token1 := 3, fee := 500, sqrtPriceX96 := 7,
                 tick := 0, liquidity := 9, price_0_to_1 := 1, price_1_to_0 := 1,
                 last_update := 0 })] ⟨none, none⟩ 5).1 =
        [(1, { address := 1, token0 := 2, token1 := 3, fee := 500, sqrtPriceX96 := 7,
               tick := 0, liquidity := 9, price_0_to_1 := 1, price_1_to_0 := 1,
               last_update := 0 })]) ∧
       (update_pool_data
          [(1, { address := 1, token0 := 2, token1 := 3, fee := 500, sqrtPriceX96 := 7,
                 tick := 0, liquidity := 9, price_0_to_1 := 1, price_1_to_0 := 1,
                 last_update := 0 })] ⟨none, none⟩ 5).2.1 = false) := by
  intro h
  have h2 := h.2
  rw [update_pool_data] at h2
  simp [Multicall.aggregate, updatePoolsLoop, updateOnePool] at h2

/-- C2 (amended): if the aggregate RPC fails entirely (both `aggregate3` and
the `aggregate` fallback), every pool keeps its `sqrtPriceX96`, `tick`,
`liquidity` and price fields unchanged, but `update_pool_data` still sets
every pool's `last_update` to the current time, counts every pool as
successfully updated, and reports success whenever the table is non-empty —
the scan cycle is not skipped.  (Only when `Multicall.aggregate` itself
raises — impossible for well-formed targets — does the `except` branch skip
the cycle with no mutation.) -/
theorem update_pool_data_total_rpc_failure (pools : List (ℕ × V3PoolInfo)) (now : ℚ) :
    (update_pool_data pools ⟨none, none⟩ now).1 =
      pools.map (fun e => (e.1, { e.2 with last_update := now })) ∧
    (update_pool_data pools ⟨none, none⟩ now).2.1 = !pools.isEmpty ∧
    (update_pool_data pools ⟨none, none⟩ now).2.2 = pools.length := by
  rw [update_pool_data]
  cases pools with
  | nil => simp
  | cons e es =>
      simp only [List.isEmpty_cons, Bool.false_eq_true, if_false, Multicall.aggregate,
        updatePoolsLoop_all_failed now (e :: es), Bool.not_false]
      simp

/-! ### Claims C6 and C10 — shape of every produced opportunity -/
theorem check_opportunity_some
    {pool_a pool_b : V3PoolInfo} {fft minP : ℤ} {now : ℚ} {opp : V3ArbitrageOpportunity}
    (h : check_opportunity pool_a pool_b fft minP now = some opp) :
    minP ≤ opp.profit_after_fee ∧
    opp.token_borrow = WETH_ADDRESS ∧
    opp.borrow_amount = 10 ^ 18 ∧
    opp.expected_profit =
      pytrunc ((10 ^ 18 : ℚ) *
        ((opp.pool_b.price_0_to_1 - opp.pool_a.price_0_to_1) / opp.pool_a.price_0_to_1)) ∧
    opp.flash_fee = pytrunc ((10 ^ 18 : ℚ) * ((fft : ℚ) / 1000000)) ∧
    opp.profit_after_fee =
      opp.expected_profit - opp.flash_fee -
        pytrunc ((10 ^ 18 : ℚ) *
          ((opp.pool_a.fee : ℚ) / 1000000 + (opp.pool_b.fee : ℚ) / 1000000)) := by
  rw [check_opportunity] at h
  split at h
  · exact absurd h (by simp)
  · by_cases hc : pool_b.price_0_to_1 < pool_a.price_0_to_1
    · simp only [if_pos hc] at h
      split at h
      · exact absurd h (by simp)
      · rename_i hnet
        split at h
        · rw [Option.some.injEq] at h
          subst h
          push_neg at hnet
          refine ⟨hnet, rfl, rfl, rfl, rfl, ?_⟩
          rw [show ((pool_b.fee : ℚ) / 1000000 + (pool_a.fee : ℚ) / 1000000) =
              ((pool_a.fee : ℚ) / 1000000 + (pool_b.fee : ℚ) / 1000000) from add_comm _ _]
          rfl
        · exact absurd h (by simp)
    · simp only [if_neg hc] at h
      split at h
      · exact absurd h (by simp)
      · rename_i hnet
        split at h
        · rw [Option.some.injEq] at h
          subst h
          push_neg at hnet
          exact ⟨hnet, rfl, rfl, rfl, rfl, rfl⟩
        · exact absurd h (by simp)

theorem mem_find_opportunities
    {pools : List V3PoolInfo} {minLiq minP fft : ℤ} {now : ℚ}
    {opp : V3ArbitrageOpportunity}
    (h : opp ∈ find_opportunities pools minLiq minP fft now) :
    ∃ a b, check_opportunity a b fft minP now = some opp := by
  simp only [find_opportunities] at h
  rcases List.mem_flatMap.mp h with ⟨k, _, hk⟩
  rcases List.mem_filterMap.mp hk with ⟨ab, _, hab⟩
  exact ⟨ab.1, ab.2, hab⟩

/-- C6 (amended): every opportunity returned by `find_opportunities` has
`profit_after_fee` at least the configured floor (equality is admitted — the
`net_profit < min_profit_wei` rejection is non-strict in the other
direction), and the list is produced in pool-enumeration order, not sorted. -/
theorem find_opportunities_net_profit_floor :
    ∀ (pools : List V3PoolInfo) (minLiq minP fft : ℤ) (now : ℚ)
      (opp : V3ArbitrageOpportunity),
      opp ∈ find_opportunities pools minLiq minP fft now →
      minP ≤ opp.profit_after_fee := by
  intro pools minLiq minP fft now opp h
  rcases mem_find_opportunities h with ⟨a, b, hab⟩
  exact (check_opportunity_some hab).1

/-- C10: every opportunity the V3 scanner produces borrows exactly 1 WETH —
`token_borrow` is the fixed WETH address and `borrow_amount` is `10^18`
regardless of pools or configuration — and its profit fields are the linear
estimate: `expected_profit = int(10^18 * price_diff)`, flash fee
`int(10^18 * flash_fee_tier/10^6)`, and `profit_after_fee` subtracts the two
pools' fee rates linearly; the AMM swap formulas are not consulted. -/
theorem find_opportunities_fixed_borrow_linear_profit :
    ∀ (pools : List V3PoolInfo) (minLiq minP fft : ℤ) (now : ℚ)
      (opp : V3ArbitrageOpportunity),
      opp ∈ find_opportunities pools minLiq minP fft now →
      opp.token_borrow = WETH_ADDRESS ∧
      opp.borrow_amount = 10 ^ 18 ∧
      opp.expected_profit =
        pytrunc ((10 ^ 18 : ℚ) *
          ((opp.pool_b.price_0_to_1 - opp.pool_a.price_0_to_1) / opp.pool_a.price_0_to_1)) ∧
      opp.flash_fee = pytrunc ((10 ^ 18 : ℚ) * ((fft : ℚ) / 1000000)) ∧
      opp.profit_after_fee =
        opp.expected_profit - opp.flash_fee -
          pytrunc ((10 ^ 18 : ℚ) *
            ((opp.pool_a.fee : ℚ) / 1000000 + (opp.pool_b.fee : ℚ) / 1000000)) := by
  intro pools minLiq minP fft now opp h
  rcases mem_find_opportunities h with ⟨a, b, hab⟩
  exact (check_opportunity_some hab).2

theorem find_opportunities_c6_eval :
    find_opportunities c6Pools MIN_LIQUIDITY (6 * 10 ^ 15) 500 0 = [c6Opp1, c6Opp2] := by
  rw [find_opportunities]
  norm_num [c6Pools, c6PoolA, c6PoolB, c6PoolC, c6PoolD, c6Opp1, c6Opp2,
    keysInOrder, poolKey, orderedPairs, check_opportunity, FEE_TIER_NAMES,
    MIN_LIQUIDITY, pytrunc, List.filter, List.foldl, List.flatMap, List.filterMap]
  rfl

/-- Counterexample to C6 as stated: on the concrete snapshot `c6Pools` with
floor `6 * 10^15`, the returned list is not sorted by descending net profit
(the second entry beats the first), and the first entry's net profit equals
the floor rather than strictly exceeding it. -/
theorem find_opportunities_c6_counterexample :
    (¬ List.Pairwise (fun o1 o2 => o2.profit_after_fee ≤ o1.profit_after_fee)
        (find_opportunities c6Pools MIN_LIQUIDITY (6 * 10 ^ 15) 500 0)) ∧
    (¬ ∀ opp ∈ find_opportunities c6Pools MIN_LIQUIDITY (6 * 10 ^ 15) 500 0,
        6 * 10 ^ 15 < opp.profit_after_fee) := by
  rw [find_opportunities_c6_eval]
  constructor
  · intro h
    have h12 := List.rel_of_pairwise_cons h (List.mem_singleton_self c6Opp2)
    rw [c6Opp1, c6Opp2] at h12
    norm_num at h12
  · intro h
    have h1 := h c6Opp1 (List.mem_cons_self c6Opp1 [c6Opp2])
    rw [c6Opp1] at h1
    norm_num at h1

/-- Witness for the amended C6 at the concrete snapshot. -/
theorem find_opportunities_net_profit_floor_witness :
    (6 * 10 ^ 15 : ℤ) ≤ c6Opp1.profit_after_fee :=
  find_opportunities_net_profit_floor c6Pools MIN_LIQUIDITY (6 * 10 ^ 15) 500 0 c6Opp1
    (by rw [find_opportunities_c6_eval]; exact List.mem_cons_self c6Opp1 [c6Opp2])

/-- Witness for C10 at the concrete snapshot. -/
theorem find_opportunities_fixed_borrow_linear_profit_witness :
    c6Opp1.token_borrow = WETH_ADDRESS ∧
    c6Opp1.borrow_amount = 10 ^ 18 ∧
    c6Opp1.expected_profit =
      pytrunc ((10 ^ 18 : ℚ) *
        ((c6Opp1.pool_b.price_0_to_1 - c6Opp1.pool_a.price_0_to_1) /
          c6Opp1.pool_a.price_0_to_1)) ∧
    c6Opp1.flash_fee = pytrunc ((10 ^ 18 : ℚ) * (((500 : ℤ) : ℚ) / 1000000)) ∧
    c6Opp1.profit_after_fee =
      c6Opp1.expected_profit - c6Opp1.flash_fee -
        pytrunc ((10 ^ 18 : ℚ) *
          ((c6Opp1.pool_a.fee : ℚ) / 1000000 + (c6Opp1.pool_b.fee : ℚ) / 1000000)) :=
  find_opportunities_fixed_borrow_linear_profit c6Pools MIN_LIQUIDITY (6 * 10 ^ 15) 500 0
    c6Opp1 (by rw [find_opportunities_c6_eval]; exact List.mem_cons_self c6Opp1 [c6Opp2])

/-! ### Claim C7 — the golden-section search and the liquidity cap -/
theorem goldenPoint_le {a b M : ℤ} (ha : a ≤ M) (hb : b ≤ M) (hM : 0 ≤ M) :
    pytrunc ((a : ℚ) + RESPHI * ((b : ℚ) - (a : ℚ))) ≤ M ∧
    pytrunc ((b : ℚ) - RESPHI * ((b : ℚ) - (a : ℚ))) ≤ M := by
  have hR0 : (0 : ℚ) ≤ RESPHI := by norm_num [RESPHI]
  have hR1 : RESPHI ≤ 1 := by norm_num [RESPHI]
  have haq : (a : ℚ) ≤ (M : ℚ) := by exact_mod_cast ha
  have hbq : (b : ℚ) ≤ (M : ℚ) := by exact_mod_cast hb
  constructor
  · apply pytrunc_le_int _ hM
    have hrw : (a : ℚ) + RESPHI * ((b : ℚ) - (a : ℚ)) =
        (1 - RESPHI) * (a : ℚ) + RESPHI * (b : ℚ) := by ring
    rw [hrw]
    calc (1 - RESPHI) * (a : ℚ) + RESPHI * (b : ℚ)
        ≤ (1 - RESPHI) * (M : ℚ) + RESPHI * (M : ℚ) :=
          add_le_add (mul_le_mul_of_nonneg_left haq (by linarith))
            (mul_le_mul_of_nonneg_left hbq hR0)
      _ = (M : ℚ) := by ring
  · apply pytrunc_le_int _ hM
    have hrw : (b : ℚ) - RESPHI * ((b : ℚ) - (a : ℚ)) =
        (1 - RESPHI) * (b : ℚ) + RESPHI * (a : ℚ) := by ring
    rw [hrw]
    calc (1 - RESPHI) * (b : ℚ) + RESPHI * (a : ℚ)
        ≤ (1 - RESPHI) * (M : ℚ) + RESPHI * (M : ℚ) :=
          add_le_add (mul_le_mul_of_nonneg_left hbq (by linarith))
            (mul_le_mul_of_nonneg_left haq hR0)
      _ = (M : ℚ) := by ring

theorem goldenLoop_le (pl ph : V3PoolData) (b0 : Bool) (prec M : ℤ) (hM : 0 ≤ M) :
    ∀ (fuel : ℕ) (low high x1 x2 f1 f2 : ℤ) (r1 r2 : V3ArbitrageResult)
      (ba bp : ℤ) (br : V3ArbitrageResult),
      low ≤ M → high ≤ M → x1 ≤ M → x2 ≤ M → ba ≤ M →
      (goldenLoop pl ph b0 prec fuel low high x1 x2 f1 f2 r1 r2 ba bp br).1 ≤ M := by
  intro fuel
  induction fuel with
  | zero =>
    intro low high x1 x2 f1 f2 r1 r2 ba bp br _ _ _ _ hba
    rw [goldenLoop]
    exact hba
  | succ fuel ih =>
    intro low high x1 x2 f1 f2 r1 r2 ba bp br hlow hhigh hx1 hx2 hba
    rw [goldenLoop]
    split
    · exact hba
    · split
      · have hnew := (goldenPoint_le hx1 hhigh hM).1
        split
        · apply ih <;> assumption
        · apply ih <;> assumption
      · have hnew := (goldenPoint_le hlow hx2 hM).2
        split
        · apply ih <;> assumption
        · apply ih <;> assumption

/-- C7 (amended): let `M` be the effective search cap — the lesser of the
configured cap and one-tenth of the smaller pool liquidity when that tenth is
positive and below the cap, otherwise the configured cap.  Whenever
`M ≥ 10^15` (so the pathological `min ≥ max` adjustment cannot overshoot it),
the borrow amount returned by `find_optimal_amount_in_fast` never exceeds
`M`.  When `M < 10^15` the pathological adjustment sets the search floor to
`10^15 > M` and the sampled points overshoot the cap (see the
counterexample). -/
theorem find_optimal_amount_in_below_cap :
    ∀ (pool_low pool_high : V3PoolData) (min_amount max_amount precision : ℤ)
      (b0 : Bool) (iters : ℕ) (M : ℤ),
      M = (if 0 < min (pool_low.liquidity.fdiv 10) (pool_high.liquidity.fdiv 10) ∧
             min (pool_low.liquidity.fdiv 10) (pool_high.liquidity.fdiv 10) < max_amount
           then min (pool_low.liquidity.fdiv 10) (pool_high.liquidity.fdiv 10)
           else max_amount) →
      10 ^ 15 ≤ M →
      (find_optimal_amount_in_fast pool_low pool_high min_amount max_amount precision
        b0 iters).1 ≤ M := by
  intro pl ph mn mx prec b0 iters M hMdef hM
  have hM0 : (0 : ℤ) ≤ M := le_trans (by norm_num) hM
  simp only [find_optimal_amount_in_fast]
  rw [← hMdef]
  set low := (if M ≤ mn then max (M.fdiv 10) (10 ^ 15) else mn) with hlowdef
  have hlow : low ≤ M := by
    rw [hlowdef]
    split
    · have hdiv : M.fdiv 10 ≤ M := by
        rw [Int.fdiv_eq_ediv _ (by norm_num : (0:ℤ) ≤ 10)]
        exact Int.ediv_le_self 10 hM0
      exact max_le hdiv hM
    · omega
  have hhigh : M ≤ M := le_refl M
  have hx1 := (goldenPoint_le hlow hhigh hM0).2
  have hx2 := (goldenPoint_le hlow hhigh hM0).1
  split
  · apply goldenLoop_le pl ph b0 prec M hM0 <;> assumption
  · apply goldenLoop_le pl ph b0 prec M hM0 <;> assumption

/-- Counterexample to C7 as stated: with the default configuration
(min 10^16, cap 10^18, precision 10^15, 30 iterations) on two pools of
liquidity 50, one tenth of the smaller liquidity is 5, yet the search
returns a borrow amount far above 5 — the pathological `min >= max`
adjustment resets the floor to 10^15, above the effective cap, and the
initial golden-section samples overshoot it. -/
theorem find_optimal_amount_in_cap_counterexample :
    min (c7TinyPool.liquidity.fdiv 10) (c7TinyPool.liquidity.fdiv 10) = 5 ∧
    5 < (find_optimal_amount_in_fast c7TinyPool c7TinyPool
          (10 ^ 16) (10 ^ 18) (10 ^ 15) true 30).1 := by
  constructor
  · decide
  · have h50 : ((50 : ℤ).fdiv 10) = 5 := by decide
    have h5 : ((5 : ℤ).fdiv 10) = 0 := by decide
    have hx1 : pytrunc (((5 : ℤ) : ℚ) - RESPHI * (((5 : ℤ) : ℚ) - ((10 ^ 15 : ℤ) : ℚ))) =
        381966011250108 := by
      rw [pytrunc, if_pos (by norm_num [RESPHI])]
      norm_num [RESPHI]
    have hx2 : pytrunc (((10 ^ 15 : ℤ) : ℚ) + RESPHI * (((5 : ℤ) : ℚ) - ((10 ^ 15 : ℤ) : ℚ))) =
        618033988749896 := by
      rw [pytrunc, if_pos (by norm_num [RESPHI])]
      norm_num [RESPHI]
    simp only [find_optimal_amount_in_fast, c7TinyPool, h50, min_self]
    rw [if_pos (show (0 : ℤ) < 5 ∧ (5 : ℤ) < 10 ^ 18 by norm_num)]
    rw [if_pos (show (5 : ℤ) ≤ 10 ^ 16 by norm_num)]
    rw [h5]
    rw [show max (0 : ℤ) (10 ^ 15) = 10 ^ 15 from max_eq_right (by norm_num)]
    rw [hx1, hx2]
    split
    · rw [show (30 : ℕ) = 29 + 1 from rfl, goldenLoop,
        if_pos (show (5 : ℤ) - 10 ^ 15 ≤ 10 ^ 15 by norm_num)]
      norm_num
    · rw [show (30 : ℕ) = 29 + 1 from rfl, goldenLoop,
        if_pos (show (5 : ℤ) - 10 ^ 15 ≤ 10 ^ 15 by norm_num)]
      norm_num

/-- Witness for the amended C7: with pool liquidity 10^18 the effective cap
is 10^17 and the returned borrow amount respects it. -/
theorem find_optimal_amount_in_below_cap_witness :
    (find_optimal_amount_in_fast c7BigPool c7BigPool
      (10 ^ 16) (10 ^ 18) (10 ^ 15) true 30).1 ≤ 10 ^ 17 :=
  find_optimal_amount_in_below_cap c7BigPool c7BigPool (10 ^ 16) (10 ^ 18) (10 ^ 15)
    true 30 (10 ^ 17) (by decide) (by decide)

theorem curveOut0_nonneg {L s a : ℚ} (hL : 0 < L) (hs : 0 < s) (ha : 0 ≤ a) :
    0 ≤ curveOut0 L s a :=
  div_nonneg (by positivity) (by positivity)

theorem curveOut1_nonneg {L s a : ℚ} (hL : 0 < L) (hs : 0 < s) (ha : 0 ≤ a) :
    0 ≤ curveOut1 L s a :=
  div_nonneg (by positivity) (by positivity)

theorem curveOut0_pos {L s a : ℚ} (hL : 0 < L) (hs : 0 < s) (ha : 0 < a) :
    0 < curveOut0 L s a :=
  div_pos (by positivity) (by positivity)

theorem curveOut1_pos {L s a : ℚ} (hL : 0 < L) (hs : 0 < s) (ha : 0 < a) :
    0 < curveOut1 L s a :=
  div_pos (by positivity) (by positivity)

theorem curveOut0_mono {L s a b : ℚ} (hL : 0 < L) (hs : 0 < s) (ha : 0 ≤ a)
    (hab : a ≤ b) : curveOut0 L s a ≤ curveOut0 L s b := by
  have hb : 0 ≤ b := le_trans ha hab
  have hda : 0 < L + a * s := by positivity
  have hdb : 0 < L + b * s := by positivity
  rw [curveOut0, curveOut0, div_le_div_iff hda hdb]
  have key : L * s ^ 2 * b * (L + a * s) - L * s ^ 2 * a * (L + b * s) =
      L ^ 2 * s ^ 2 * (b - a) := by ring
  have pos : 0 ≤ L ^ 2 * s ^ 2 * (b - a) :=
    mul_nonneg (by positivity) (sub_nonneg.mpr hab)
  linarith

theorem curveOut1_mono {L s a b : ℚ} (hL : 0 < L) (hs : 0 < s) (ha : 0 ≤ a)
    (hab : a ≤ b) : curveOut1 L s a ≤ curveOut1 L s b := by
  have hb : 0 ≤ b := le_trans ha hab
  have hda : 0 < s * (L * s + a) := by positivity
  have hdb : 0 < s * (L * s + b) := by positivity
  rw [curveOut1, curveOut1, div_le_div_iff hda hdb]
  have key : b * L * (s * (L * s + a)) - a * L * (s * (L * s + b)) =
      L ^ 2 * s ^ 2 * (b - a) := by ring
  have pos : 0 ≤ L ^ 2 * s ^ 2 * (b - a) :=
    mul_nonneg (by positivity) (sub_nonneg.mpr hab)
  linarith

theorem curveOut0_lt {L s a : ℚ} (hL : 0 < L) (hs : 0 < s) (ha : 0 < a) :
    curveOut0 L s a < s ^ 2 * a := by
  have h1 : L * s ^ 2 * a / (L + a * s) < L * s ^ 2 * a / L := by
    apply div_lt_div_of_pos_left (by positivity) hL
    nlinarith [mul_pos ha hs]
  have h2 : L * s ^ 2 * a / L = s ^ 2 * a := by
    field_simp
    ring
  rw [curveOut0]
  linarith

theorem curveOut1_lt {L s a : ℚ} (hL : 0 < L) (hs : 0 < s) (ha : 0 < a) :
    curveOut1 L s a < a / s ^ 2 := by
  have h1 : a * L / (s * (L * s + a)) < a * L / (s * (L * s)) := by
    apply div_lt_div_of_pos_left (by positivity) (by positivity)
    nlinarith [mul_pos hs ha]
  have h2 : a * L / (s * (L * s)) = a / s ^ 2 := by
    field_simp
    ring
  rw [curveOut1]
  linarith

theorem curve_round_trip_lt {L s x : ℚ} (hL : 0 < L) (hs : 0 < s) (hx : 0 < x) :
    curveOut1 L s (curveOut0 L s x) < x ∧ curveOut0 L s (curveOut1 L s x) < x := by
  have hs2 : (0 : ℚ) < s ^ 2 := by positivity
  constructor
  · have hy := curveOut0_pos hL hs hx
    have h1 := curveOut1_lt hL hs hy
    have h2 := curveOut0_lt hL hs hx
    have h3 : curveOut0 L s x / s ^ 2 < x := by
      rw [div_lt_iff hs2]
      nlinarith
    linarith
  · have hz := curveOut1_pos hL hs hx
    have h1 := curveOut0_lt hL hs hz
    have h2 := curveOut1_lt hL hs hx
    have h3 : s ^ 2 * curveOut1 L s x < x := by
      have h4 := (mul_lt_mul_left hs2).mpr h2
      have h5 : s ^ 2 * (x / s ^ 2) = x := by field_simp
      linarith
    linarith

theorem get_v3_amount_out_fst_nonneg (a S L F : ℤ) (dir : Bool) :
    0 ≤ (get_v3_amount_out_fast a S L F dir).1 := by
  simp only [get_v3_amount_out_fast]
  split
  · norm_num
  · split
    · split
      · norm_num
      · exact le_max_left 0 _
    · split
      · norm_num
      · exact le_max_left 0 _

theorem dy_eq_curve (L s xp : ℚ) (hdenne : L + xp * s ≠ 0) :
    L * (s - L * s / (L + xp * s)) = curveOut0 L s xp := by
  rw [curveOut0]
  field_simp
  ring

theorem dx_eq_curve (L s xp : ℚ) (hs : s ≠ 0) (hL : L ≠ 0)
    (hLsxpne : L * s + xp ≠ 0) :
    L * (1 / s - 1 / (s + xp / L)) = curveOut1 L s xp := by
  have hrw : s + xp / L = (L * s + xp) / L := by
    field_simp
    ring
  rw [curveOut1, hrw, one_div_div]
  field_simp
  ring

theorem sNew_pos_lin (L s xp : ℚ) (hL : 0 < L) (hsnew : 0 < s + xp / L) :
    (0 : ℚ) < L * s + xp := by
  have h := mul_pos hL hsnew
  have hexp : L * (s + xp / L) = L * s + xp := by
    field_simp
    ring
  linarith

set_option maxRecDepth 8000 in
theorem get_v3_amount_out_le_curve (a S L F : ℤ) (dir : Bool)
    (hS : 0 < S) (hL : 0 < L) (hF : 0 ≤ F) (ha : 0 ≤ a) :
    ((get_v3_amount_out_fast a S L F dir).1 : ℚ) ≤
      (if dir then curveOut0 (L : ℚ) ((S : ℚ) / (Q96 : ℚ)) (a : ℚ)
       else curveOut1 (L : ℚ) ((S : ℚ) / (Q96 : ℚ)) (a : ℚ)) := by
  have hLq : (0 : ℚ) < (L : ℚ) := by exact_mod_cast hL
  have hsq : (0 : ℚ) < (S : ℚ) / (Q96 : ℚ) := by
    apply div_pos
    · exact_mod_cast hS
    · norm_num [Q96]
  have haq : (0 : ℚ) ≤ (a : ℚ) := by exact_mod_cast ha
  rcases eq_or_lt_of_le ha with h0 | hpos
  · have hz : (get_v3_amount_out_fast a S L F dir).1 = 0 := by
      rw [get_v3_amount_out_fast, if_pos (Or.inl (le_of_eq h0.symm))]
    rw [hz]
    push_cast
    split
    · exact curveOut0_nonneg hLq hsq haq
    · exact curveOut1_nonneg hLq hsq haq
  · have hguard : ¬ (a ≤ 0 ∨ L ≤ 0 ∨ S ≤ 0) := by push_neg; exact ⟨hpos, hL, hS⟩
    simp only [get_v3_amount_out_fast, if_neg hguard]
    have hfee : 0 ≤ (a * F).fdiv FEE_DENOMINATOR :=
      Int.fdiv_nonneg (mul_nonneg hpos.le hF) (by norm_num [FEE_DENOMINATOR])
    have hxple : a - (a * F).fdiv FEE_DENOMINATOR ≤ a := by omega
    have hxpq : ((a - (a * F).fdiv FEE_DENOMINATOR : ℤ) : ℚ) ≤ (a : ℚ) := by
      exact_mod_cast hxple
    cases dir with
    | true =>
      simp only [if_true]
      split
      · rename_i hden
        show ((0 : ℤ) : ℚ) ≤ curveOut0 (L : ℚ) ((S : ℚ) / (Q96 : ℚ)) (a : ℚ)
        exact_mod_cast curveOut0_nonneg hLq hsq haq
      · rename_i hden
        push_neg at hden
        have hdy := dy_eq_curve (L : ℚ) ((S : ℚ) / (Q96 : ℚ))
          ((a - (a * F).fdiv FEE_DENOMINATOR : ℤ) : ℚ) hden.ne'
        have hbound : curveOut0 (L : ℚ) ((S : ℚ) / (Q96 : ℚ))
            ((a - (a * F).fdiv FEE_DENOMINATOR : ℤ) : ℚ) ≤
            curveOut0 (L : ℚ) ((S : ℚ) / (Q96 : ℚ)) (a : ℚ) := by
          rcases le_or_lt 0 ((a - (a * F).fdiv FEE_DENOMINATOR : ℤ) : ℚ) with hxp0 | hxp0
          · exact curveOut0_mono hLq hsq hxp0 hxpq
          · have hnum : (L : ℚ) * ((S : ℚ) / (Q96 : ℚ)) ^ 2 *
                ((a - (a * F).fdiv FEE_DENOMINATOR : ℤ) : ℚ) ≤ 0 :=
              mul_nonpos_of_nonneg_of_nonpos (by positivity) hxp0.le
            have hle0 : curveOut0 (L : ℚ) ((S : ℚ) / (Q96 : ℚ))
                ((a - (a * F).fdiv FEE_DENOMINATOR : ℤ) : ℚ) ≤ 0 := by
              rw [curveOut0]
              exact div_nonpos_of_nonpos_of_nonneg hnum hden.le
            exact le_trans hle0 (curveOut0_nonneg hLq hsq haq)
        exact max_zero_pytrunc_le (hdy.le.trans hbound) (curveOut0_nonneg hLq hsq haq)
    | false =>
      simp only [Bool.false_eq_true, if_false]
      split
      · rename_i hsnew
        show ((0 : ℤ) : ℚ) ≤ curveOut1 (L : ℚ) ((S : ℚ) / (Q96 : ℚ)) (a : ℚ)
        exact_mod_cast curveOut1_nonneg hLq hsq haq
      · rename_i hsnew
        push_neg at hsnew
        have hLsxp := sNew_pos_lin (L : ℚ) ((S : ℚ) / (Q96 : ℚ))
          ((a - (a * F).fdiv FEE_DENOMINATOR : ℤ) : ℚ) hLq hsnew
        have hdx := dx_eq_curve (L : ℚ) ((S : ℚ) / (Q96 : ℚ))
          ((a - (a * F).fdiv FEE_DENOMINATOR : ℤ) : ℚ) hsq.ne' hLq.ne' hLsxp.ne'
        have hbound : curveOut1 (L : ℚ) ((S : ℚ) / (Q96 : ℚ))
            ((a - (a * F).fdiv FEE_DENOMINATOR : ℤ) : ℚ) ≤
            curveOut1 (L : ℚ) ((S : ℚ) / (Q96 : ℚ)) (a : ℚ) := by
          rcases le_or_lt 0 ((a - (a * F).fdiv FEE_DENOMINATOR : ℤ) : ℚ) with hxp0 | hxp0
          · exact curveOut1_mono hLq hsq hxp0 hxpq
          · have hnum : ((a - (a * F).fdiv FEE_DENOMINATOR : ℤ) : ℚ) * (L : ℚ) ≤ 0 :=
              mul_nonpos_of_nonpos_of_nonneg hxp0.le hLq.le
            have hdenp : (0 : ℚ) ≤ ((S : ℚ) / (Q96 : ℚ)) *
                ((L : ℚ) * ((S : ℚ) / (Q96 : ℚ)) +
                  ((a - (a * F).fdiv FEE_DENOMINATOR : ℤ) : ℚ)) :=
              (mul_pos hsq hLsxp).le
            have hle0 : curveOut1 (L : ℚ) ((S : ℚ) / (Q96 : ℚ))
                ((a - (a * F).fdiv FEE_DENOMINATOR : ℤ) : ℚ) ≤ 0 := by
              rw [curveOut1]
              exact div_nonpos_of_nonpos_of_nonneg hnum hdenp
            exact le_trans hle0 (curveOut1_nonneg hLq hsq haq)
        exact max_zero_pytrunc_le (hdx.le.trans hbound) (curveOut1_nonneg hLq hsq haq)

/-- Claim C9: for every x > 0 and every pool state with positive liquidity,
positive sqrtPriceX96 and positive fee, feeding the output of
`get_v3_amount_out_fast` for direction `dir` back through the same pool in
the opposite direction yields strictly less than x: a round trip through a
single pool is lossy. -/
theorem round_trip_lossy (x S L F : ℤ) (dir : Bool)
    (hx : 0 < x) (hS : 0 < S) (hL : 0 < L) (hF : 0 < F) :
    (get_v3_amount_out_fast ((get_v3_amount_out_fast x S L F dir).1)
      S L F (!dir)).1 < x := by
  have hxq : (0 : ℚ) < (x : ℚ) := by exact_mod_cast hx
  have hLq : (0 : ℚ) < (L : ℚ) := by exact_mod_cast hL
  have hsq : (0 : ℚ) < (S : ℚ) / (Q96 : ℚ) := by
    apply div_pos
    · exact_mod_cast hS
    · norm_num [Q96]
  have ho1 : 0 ≤ (get_v3_amount_out_fast x S L F dir).1 :=
    get_v3_amount_out_fst_nonneg x S L F dir
  have ho1q : (0 : ℚ) ≤ ((get_v3_amount_out_fast x S L F dir).1 : ℚ) := by
    exact_mod_cast ho1
  have h1 := get_v3_amount_out_le_curve x S L F dir hS hL hF.le hx.le
  have h2 := get_v3_amount_out_le_curve ((get_v3_amount_out_fast x S L F dir).1)
    S L F (!dir) hS hL hF.le ho1
  have hrt := curve_round_trip_lt hLq hsq hxq
  cases dir with
  | true =>
    simp only [if_true, Bool.not_true, Bool.false_eq_true, if_false] at h1 h2 ⊢
    have hmono := curveOut1_mono hLq hsq ho1q h1
    have hq : ((get_v3_amount_out_fast ((get_v3_amount_out_fast x S L F true).1)
        S L F false).1 : ℚ) < (x : ℚ) :=
      lt_of_le_of_lt (h2.trans hmono) hrt.1
    exact_mod_cast hq
  | false =>
    simp only [Bool.not_false, if_true, Bool.false_eq_true, if_false] at h1 h2 ⊢
    have hmono := curveOut0_mono hLq hsq ho1q h1
    have hq : ((get_v3_amount_out_fast ((get_v3_amount_out_fast x S L F false).1)
        S L F true).1 : ℚ) < (x : ℚ) :=
      lt_of_le_of_lt (h2.trans hmono) hrt.2
    exact_mod_cast hq

set_option maxRecDepth 8000 in
/-- Witness for C9: borrowing 1 WETH through a pool with liquidity 10^22,
price 1 (sqrtPriceX96 = 2^96) and fee tier 3000 and swapping back returns
strictly less than the 10^18 wei put in. -/
theorem round_trip_lossy_witness :
    (get_v3_amount_out_fast ((get_v3_amount_out_fast (10 ^ 18) (2 ^ 96)
      (10 ^ 22) 3000 true).1) (2 ^ 96) (10 ^ 22) 3000 (!true)).1 < 10 ^ 18 :=
  round_trip_lossy (10 ^ 18) (2 ^ 96) (10 ^ 22) 3000 true
    (by decide) (by decide) (by decide) (by decide)
